import Mathlib

/-!
Shallow embedding of the pipeline core of DDP_backend:

* `ddpui/core/pipelinefunctions.py` — task-config assembly
  (`setup_airbyte_sync_task_config`, `setup_dbt_core_task_config`,
  `setup_git_pull_shell_task_config`, `pipeline_with_orgtasks`) and
  lock/status resolution (`fetch_pipeline_lock`);
* `service.py` — recursive run-graph traversal (`traverse_flow_run_graph`),
  log projection (`parse_log`) and log aggregation (`get_flow_run_logs`).

Python dictionaries are modelled as records; attribute access on `None`
(Python `AttributeError`) and dictionary access on a missing key
(Python `KeyError`) are modelled by the `Except String` monad; Django
querysets are modelled as lists carried in an explicit database record.
-/

namespace Ddp

/-! ## Data model for pipelinefunctions.py -/

/-- The `Task` master row: only the slug is read by the assembly code. -/
structure Task where
  slug : String
deriving DecidableEq, Repr

/-- An `OrgTask` row.  `parameters` models the result of the
`org_task.get_task_parameters()` method (defined outside the assembly
module); the assembly code only splices it into command strings. -/
structure OrgTask where
  task : Task
  uuid : String
  connection_id : Option String
  parameters : String
deriving DecidableEq, Repr

/-- An `OrgPrefectBlockv1` row: the fields read by the assembly code. -/
structure OrgPrefectBlockv1 where
  block_type : String
  block_name : String
deriving DecidableEq, Repr

/-- An `Org` together with its registered prefect blocks
(the `OrgPrefectBlockv1.objects.filter(org=org, ...)` queryset). -/
structure Org where
  blocks : List OrgPrefectBlockv1
deriving DecidableEq, Repr

/-- `DbtProjectParams` from `ddpui.ddpdbt.schema`: the fields read here. -/
structure DbtProjectParams where
  dbt_binary : String
  project_dir : String
  target : String
deriving DecidableEq, Repr

/-- Constant from `ddpui.utils.constants` (module not under `src/`);
value as in the repository. -/
def TASK_AIRBYTESYNC : String := "airbyte-sync"

/-- Constant from `ddpui.utils.constants` (module not under `src/`);
value as in the repository. -/
def TASK_GITPULL : String := "git-pull"

/-- Constant from `ddpui.utils.constants` (module not under `src/`):
the fixed airbyte sync timeout. -/
def AIRBYTE_SYNC_TIMEOUT : Nat := 15

/-- Block-type constant from `ddpui.ddpprefect` (module not under `src/`). -/
def AIRBYTECONNECTION : String := "Airbyte Connection"

/-- Block-type constant from `ddpui.ddpprefect` (module not under `src/`). -/
def DBTCORE : String := "dbt Core Operation"

/-- Block-type constant from `ddpui.ddpprefect` (module not under `src/`). -/
def SECRET : String := "Secret"

/-- Block-type constant from `ddpui.ddpprefect` (module not under `src/`). -/
def SHELLOPERATION : String := "Shell Operation"

/-- `PrefectAirbyteSyncTaskSetup` payload (the `.to_json()` dictionary). -/
structure PrefectAirbyteSyncTaskSetup where
  seq : Nat
  slug : String
  type : String
  airbyte_server_block : String
  connection_id : Option String
  timeout : Nat
  orgtask_uuid : String
deriving DecidableEq, Repr

/-- `PrefectShellTaskSetup` payload (the `.to_json()` dictionary). -/
structure PrefectShellTaskSetup where
  seq : Nat
  slug : String
  type : String
  commands : List String
  working_dir : String
  env : List (String × String)
  orgtask_uuid : String
deriving DecidableEq, Repr

/-- `PrefectDbtTaskSetup` payload (the `.to_json()` dictionary). -/
structure PrefectDbtTaskSetup where
  seq : Nat
  slug : String
  type : String
  commands : List String
  env : List (String × String)
  working_dir : String
  profiles_dir : String
  project_dir : String
  cli_profile_block : String
  cli_args : List String
  orgtask_uuid : String
deriving DecidableEq, Repr

/-- A task config produced by one of the three builders: the value a
`task_configs` list entry holds after `.to_json()`. -/
inductive TaskConfig where
  | airbyteSync (c : PrefectAirbyteSyncTaskSetup)
  | shell (c : PrefectShellTaskSetup)
  | dbtCore (c : PrefectDbtTaskSetup)
deriving DecidableEq, Repr

/-- Read the `seq` entry of a task-config dictionary. -/
def TaskConfig.seq : TaskConfig → Nat
  | .airbyteSync c => c.seq
  | .shell c => c.seq
  | .dbtCore c => c.seq

/-- Read the `slug` entry of a task-config dictionary. -/
def TaskConfig.slug : TaskConfig → String
  | .airbyteSync c => c.slug
  | .shell c => c.slug
  | .dbtCore c => c.slug

/-- `task_config["seq"] = n`: overwrite the `seq` entry. -/
def TaskConfig.setSeq : TaskConfig → Nat → TaskConfig
  | .airbyteSync c, n => .airbyteSync { c with seq := n }
  | .shell c, n => .shell { c with seq := n }
  | .dbtCore c, n => .dbtCore { c with seq := n }

/-- Substring test on character lists: `pat` occurs inside the list. -/
def charsContain (pat : List Char) : List Char → Bool
  | [] => pat.isPrefixOf ([] : List Char)
  | c :: rest => pat.isPrefixOf (c :: rest) || charsContain pat rest

/-- Django `block_name__contains=pat`: substring containment on strings. -/
def strContains (hay pat : String) : Bool :=
  charsContain pat.toList hay.toList

/-- `setup_airbyte_sync_task_config` (pipelinefunctions.py lines 33–45).
The Python callee receives a possibly-`None` `server_block` from
`pipeline_with_orgtasks` and reads `server_block.block_name`; a `None`
argument is the `AttributeError` branch. -/
def setup_airbyte_sync_task_config (org_task : OrgTask)
    (server_block : Option OrgPrefectBlockv1) (seq : Nat) :
    Except String TaskConfig :=
  match server_block with
  | none => .error "AttributeError: NoneType has no attribute block_name"
  | some sb => .ok (.airbyteSync
      { seq := seq
        slug := org_task.task.slug
        type := AIRBYTECONNECTION
        airbyte_server_block := sb.block_name
        connection_id := org_task.connection_id
        timeout := AIRBYTE_SYNC_TIMEOUT
        orgtask_uuid := org_task.uuid })

/-- `setup_dbt_core_task_config` (pipelinefunctions.py lines 48–69).
Reads `dbt_project_params.dbt_binary`/`.target`/`.project_dir` and
`cli_profile_block.block_name`; a `None` in either argument is the
`AttributeError` branch (the dbt params are read first, in the
`commands` f-string). -/
def setup_dbt_core_task_config (org_task : OrgTask)
    (cli_profile_block : Option OrgPrefectBlockv1)
    (dbt_project_params : Option DbtProjectParams) (seq : Nat) :
    Except String TaskConfig :=
  match dbt_project_params with
  | none => .error "AttributeError: NoneType has no attribute dbt_binary"
  | some p =>
    match cli_profile_block with
    | none => .error "AttributeError: NoneType has no attribute block_name"
    | some cb => .ok (.dbtCore
        { seq := seq
          slug := org_task.task.slug
          commands := [p.dbt_binary ++ " " ++ org_task.parameters
            ++ " --target " ++ p.target]
          type := DBTCORE
          env := []
          working_dir := p.project_dir
          profiles_dir := p.project_dir ++ "/profiles/"
          project_dir := p.project_dir
          cli_profile_block := cb.block_name
          cli_args := []
          orgtask_uuid := org_task.uuid })

/-- `setup_git_pull_shell_task_config` (pipelinefunctions.py lines 72–92).
`shell_env` starts as `{"secret-git-pull-url-block": ""}` and the slot is
overwritten with the block name only when the secret block is not `None`;
total, no failure path. -/
def setup_git_pull_shell_task_config (org_task : OrgTask)
    (project_dir : String) (gitpull_secret_block : Option OrgPrefectBlockv1)
    (seq : Nat) : TaskConfig :=
  let secret_val : String :=
    match gitpull_secret_block with
    | none => ""
    | some b => b.block_name
  .shell
    { commands := ["git " ++ org_task.parameters]
      working_dir := project_dir
      env := [("secret-git-pull-url-block", secret_val)]
      slug := org_task.task.slug
      type := SHELLOPERATION
      seq := seq
      orgtask_uuid := org_task.uuid }

/-- One iteration of the dispatch in `pipeline_with_orgtasks`
(pipelinefunctions.py lines 186–206): choose the builder by slug.  The
git-pull branch reads `dbt_project_params.project_dir` in the caller, so
`None` dbt params fail there; the secret block is the first org block of
kind `SECRET` whose name contains `"git-pull"` and its absence is
non-fatal.  Every completed branch yields `some` config (mirroring the
`if task_config:` guard, which in the source never sees a falsy value
from a completed branch). -/
def build_task_config (org : Org)
    (server_block cli_block : Option OrgPrefectBlockv1)
    (dbt_project_params : Option DbtProjectParams) (org_task : OrgTask) :
    Except String (Option TaskConfig) :=
  if org_task.task.slug == TASK_AIRBYTESYNC then
    (setup_airbyte_sync_task_config org_task server_block 1).map some
  else if org_task.task.slug == TASK_GITPULL then
    let gitpull_secret_block :=
      (org.blocks.filter fun b =>
        b.block_type == SECRET && strContains b.block_name "git-pull").head?
    match dbt_project_params with
    | none => .error "AttributeError: NoneType has no attribute project_dir"
    | some p => .ok (some
        (setup_git_pull_shell_task_config org_task p.project_dir
          gitpull_secret_block 1))
  else
    (setup_dbt_core_task_config org_task cli_block dbt_project_params 1).map some

/-- The loop of `pipeline_with_orgtasks` (pipelinefunctions.py lines
185–211): on `some` config, append it with its `seq` entry set to the
current counter and advance the counter; on `none`, skip without
consuming a sequence number (the source mutates the appended
dictionary's `seq` after appending — value-level, the entry is written
before insertion). -/
def pipeline_loop (org : Org)
    (server_block cli_block : Option OrgPrefectBlockv1)
    (dbt_project_params : Option DbtProjectParams) :
    List OrgTask → Nat → Except String (List TaskConfig)
  | [], _ => .ok []
  | org_task :: rest, seq =>
    match build_task_config org server_block cli_block dbt_project_params
        org_task with
    | .error e => .error e
    | .ok none =>
      pipeline_loop org server_block cli_block dbt_project_params rest seq
    | .ok (some cfg) =>
      (pipeline_loop org server_block cli_block dbt_project_params rest
        (seq + 1)).map fun cfgs => cfg.setSeq seq :: cfgs

/-- `pipeline_with_orgtasks` (pipelinefunctions.py lines 171–213): returns
the pair `(task_configs, None)` mirroring `return task_configs, None`. -/
def pipeline_with_orgtasks (org : Org) (org_tasks : List OrgTask)
    (server_block cli_block : Option OrgPrefectBlockv1)
    (dbt_project_params : Option DbtProjectParams) (start_seq : Nat) :
    Except String (List TaskConfig × Option String) :=
  (pipeline_loop org server_block cli_block dbt_project_params org_tasks
    start_seq).map fun cfgs => (cfgs, none)

/-! ## Lock resolution (`fetch_pipeline_lock`) -/

/-- `TaskLockStatus` from `ddpui.models.tasks`. -/
inductive TaskLockStatus where
  | QUEUED
  | RUNNING
  | COMPLETED
  | LOCKED
deriving DecidableEq, Repr

/-- A `TaskLock` row: the fields read by `fetch_pipeline_lock`.
`locked_by_email` models `lock.locked_by.user.email`;
`locking_dataflow` is a nullable foreign key, carried as the dataflow id. -/
structure TaskLock where
  orgtask_id : Nat
  locked_by_email : String
  locked_at : String
  flow_run_id : Option String
  locking_dataflow : Option Nat
deriving DecidableEq, Repr

/-- The rows `fetch_pipeline_lock` queries: the `DataflowOrgTask`
mapping (pairs of dataflow id and orgtask id) and the `TaskLock` table
in queryset order. -/
structure LockDb where
  dataflow_orgtasks : List (Nat × Nat)
  task_locks : List TaskLock
deriving DecidableEq, Repr

/-- The engine's answer to a flow-run status query, as seen at the
HTTP boundary: a run with a `state_type`, no such run, or a failed /
unparseable response. -/
inductive EngineRunResp where
  | found (state_type : String)
  | notFound
  | engineFailure
deriving DecidableEq, Repr

/-- The dictionary `fetch_pipeline_lock` reads `["state_type"]` from. -/
structure PrefectFlowRun where
  state_type : String
deriving DecidableEq, Repr

/-- Modelled from the spec: `prefect_service.get_flow_run` is not under
`src/` (only its caller `fetch_pipeline_lock` is).  Per the spec's
failure semantics for LockResolver ("if the live-status query to the
external engine fails or returns an unrecognized shape, degrade to the
last-known step-3/4 status rather than propagating a hard failure"), an
engine failure or unrecognized shape yields an absent result instead of
raising, and a missing run likewise yields an absent result. -/
def get_flow_run (engine : String → EngineRunResp) (flow_run_id : String) :
    Option PrefectFlowRun :=
  match engine flow_run_id with
  | .found st => some { state_type := st }
  | .notFound => none
  | .engineFailure => none

/-- The orgtask ids of a dataflow: `DataflowOrgTask.objects.filter(
dataflow=dataflow).values_list("orgtask_id", flat=True)`
(pipelinefunctions.py lines 220–222). -/
def dataflow_orgtask_ids (db : LockDb) (dataflow : Nat) : List Nat :=
  (db.dataflow_orgtasks.filter fun p => p.1 == dataflow).map fun p => p.2

/-- `TaskLock.objects.filter(orgtask_id__in=org_task_ids).first()`
(pipelinefunctions.py line 223). -/
def find_task_lock (db : LockDb) (dataflow : Nat) : Option TaskLock :=
  db.task_locks.find? fun l =>
    (dataflow_orgtask_ids db dataflow).contains l.orgtask_id

/-- The record `fetch_pipeline_lock` returns. -/
structure LockView where
  lockedBy : String
  lockedAt : String
  flowRunId : Option String
  status : TaskLockStatus
deriving DecidableEq, Repr

/-- `fetch_pipeline_lock` (pipelinefunctions.py lines 216–246): find the
first lock over the dataflow's orgtasks; default status `QUEUED`; when
the lock carries a run id, query the engine and map
SCHEDULED/PENDING → QUEUED, RUNNING → RUNNING, anything else (a falsy
result included) → COMPLETED; in the returned record the status is
overridden to `LOCKED` when `lock.locking_dataflow` is not the queried
dataflow. -/
def fetch_pipeline_lock (db : LockDb) (engine : String → EngineRunResp)
    (dataflow : Nat) : Option LockView :=
  match find_task_lock db dataflow with
  | none => none
  | some lock =>
    let lock_status : TaskLockStatus :=
      match lock.flow_run_id with
      | none => .QUEUED
      | some rid =>
        match get_flow_run engine rid with
        | some flow_run =>
          if flow_run.state_type == "SCHEDULED"
              || flow_run.state_type == "PENDING" then .QUEUED
          else if flow_run.state_type == "RUNNING" then .RUNNING
          else .COMPLETED
        | none => .COMPLETED
    some
      { lockedBy := lock.locked_by_email
        lockedAt := lock.locked_at
        flowRunId := lock.flow_run_id
        status :=
          if lock.locking_dataflow == some dataflow then lock_status
          else .LOCKED }

/-! ## Run-graph traversal and log aggregation (service.py) -/

/-- The shape of one node of an engine-reported run graph, as read by
`traverse_flow_run_graph` (service.py lines 439–447).  `α` is the model
of a child run: `noState` = the node has no `"state"` key; `noDetails`
= `"state"` present, no `"state_details"` key; `noChildKey` =
`"state_details"` present without a `"child_flow_run_id"` entry (so the
source's direct `["child_flow_run_id"]` access raises `KeyError`);
`childNull` = the entry is present and null (falsy); `child sub` = the
entry holds the child run's identifier (with `sub`'s engine-reported
graph below it — an empty identifier string is falsy too). -/
inductive GNode (α : Type) where
  | noState
  | noDetails
  | noChildKey
  | childNull
  | child (sub : α)
deriving DecidableEq, Repr

/-- A finite engine-reported run graph rooted at one run: the run's
identifier together with the node list the engine's graph query
returns for it, each node optionally referring to a child run's graph.
The claims about the traversal quantify over finite acyclic
engine-reported graphs; this inductive is exactly that shape. -/
inductive FlowRunTree where
  | mk (id : String) (nodes : List (GNode FlowRunTree))

/-- The run identifier at the root of an engine-reported graph. -/
def FlowRunTree.id : FlowRunTree → String
  | .mk i _ => i

/-- The node list the engine's graph query returns for the root run. -/
def FlowRunTree.nodes : FlowRunTree → List (GNode FlowRunTree)
  | .mk _ ns => ns

mutual

/-- The recursive body of `traverse_flow_run_graph` for a non-null run
identifier (service.py lines 430–449): append the current identifier,
return if the graph query yields no nodes, otherwise scan the nodes in
order, recursing into each truthy child reference; a node whose
`state_details` lacks the `child_flow_run_id` entry raises `KeyError`. -/
def traverse_run (fr : FlowRunTree) (flow_runs : List (Option String)) :
    Except String (List (Option String)) :=
  match fr with
  | .mk fid nodes =>
    let flow_runs2 := flow_runs ++ [some fid]
    if nodes.length = 0 then .ok flow_runs2
    else traverse_nodes nodes flow_runs2

/-- The `for flow in flow_graph_data` loop of `traverse_flow_run_graph`
(service.py lines 439–447), one node at a time, left to right. -/
def traverse_nodes (nodes : List (GNode FlowRunTree))
    (flow_runs : List (Option String)) :
    Except String (List (Option String)) :=
  match nodes with
  | [] => .ok flow_runs
  | .noState :: rest => traverse_nodes rest flow_runs
  | .noDetails :: rest => traverse_nodes rest flow_runs
  | .noChildKey :: _ => .error "KeyError: child_flow_run_id"
  | .childNull :: rest => traverse_nodes rest flow_runs
  | .child sub :: rest =>
    if sub.id == "" then traverse_nodes rest flow_runs
    else
      match traverse_run sub flow_runs with
      | .error e => .error e
      | .ok acc2 => traverse_nodes rest acc2

end

/-- `traverse_flow_run_graph` (service.py lines 427–449): the identifier
is appended to the accumulator first; a `None` identifier then returns
immediately, before any engine query. -/
def traverse_flow_run_graph (flow_run : Option FlowRunTree)
    (flow_runs : List (Option String)) :
    Except String (List (Option String)) :=
  match flow_run with
  | none => .ok (flow_runs ++ [none])
  | some fr => traverse_run fr flow_runs

mutual

/-- An engine-reported graph is well shaped when every reachable node
whose `state_details` is present carries the `child_flow_run_id` entry
(the shape §6 of the spec attributes to the engine's graph query). -/
def wf_run (fr : FlowRunTree) : Bool :=
  match fr with
  | .mk _ nodes => wf_nodes nodes

/-- Well-shapedness of a node list, checking each child subtree. -/
def wf_nodes (nodes : List (GNode FlowRunTree)) : Bool :=
  match nodes with
  | [] => true
  | .noState :: rest => wf_nodes rest
  | .noDetails :: rest => wf_nodes rest
  | .noChildKey :: _ => false
  | .childNull :: rest => wf_nodes rest
  | .child sub :: rest => wf_run sub && wf_nodes rest

end

mutual

/-- The depth-first pre-order listing of run identifiers of an
engine-reported graph, written from the spec's words ("append the
current run identifier to the accumulator first (pre-order), then …
for any node whose state carries a child-run reference, recurse"): the
root first, then each child's listing in node order. -/
def preorder_ids (fr : FlowRunTree) : List (Option String) :=
  match fr with
  | .mk fid nodes => some fid :: preorder_nodes nodes

/-- Pre-order listing of the runs below a node list, in node order. -/
def preorder_nodes (nodes : List (GNode FlowRunTree)) :
    List (Option String) :=
  match nodes with
  | [] => []
  | .noState :: rest => preorder_nodes rest
  | .noDetails :: rest => preorder_nodes rest
  | .noChildKey :: rest => preorder_nodes rest
  | .childNull :: rest => preorder_nodes rest
  | .child sub :: rest =>
    if sub.id == "" then preorder_nodes rest
    else preorder_ids sub ++ preorder_nodes rest

end

/-- A raw log record as returned by the engine's `logs/filter` query:
`parse_log` keeps only three of its fields. -/
structure PrefectLogRecord where
  level : Int
  timestamp : String
  message : String
  flow_run_id : Option String
  task_run_id : Option String
deriving DecidableEq, Repr

/-- The projected record `parse_log` returns. -/
structure LogSelection where
  level : Int
  timestamp : String
  message : String
deriving DecidableEq, Repr

/-- `parse_log` (service.py lines 418–424): select level, timestamp,
message. -/
def parse_log (log : PrefectLogRecord) : LogSelection :=
  { level := log.level, timestamp := log.timestamp, message := log.message }

/-- The body `get_flow_run_logs` posts to `logs/filter`
(service.py lines 456–466). -/
structure LogsFilterBody where
  operator : String
  flow_run_id_any : List (Option String)
  sort : String
  offset : Int
deriving DecidableEq, Repr

/-- The `{offset, logs}` record `get_flow_run_logs` returns. -/
structure FlowRunLogsResult where
  offset : Int
  logs : List LogSelection
deriving DecidableEq, Repr

/-- `get_flow_run_logs` (service.py lines 452–470): traverse the run
graph from the root, then issue one batched `logs/filter` query over
the full identifier set with ascending-timestamp sort and the caller's
offset, project each record through `parse_log`, and echo the offset.
`logs_filter` abstracts the engine's answer to the posted body. -/
def get_flow_run_logs (logs_filter : LogsFilterBody → List PrefectLogRecord)
    (flow_run : Option FlowRunTree) (offset : Int) :
    Except String FlowRunLogsResult :=
  match traverse_flow_run_graph flow_run [] with
  | .error e => .error e
  | .ok flow_run_ids =>
    let logs := logs_filter
      { operator := "and_"
        flow_run_id_any := flow_run_ids
        sort := "TIMESTAMP_ASC"
        offset := offset }
    .ok { offset := offset, logs := logs.map parse_log }

/-! ## Derived accessors, build-outcome predicates, concrete instances -/

/-- Read the `orgtask_uuid` entry of a task-config dictionary. -/
def TaskConfig.orgtask_uuid : TaskConfig → String
  | .airbyteSync c => c.orgtask_uuid
  | .shell c => c.orgtask_uuid
  | .dbtCore c => c.orgtask_uuid

/-- The build step for this task completed and produced a config. -/
def build_produced (org : Org) (sb cb : Option OrgPrefectBlockv1)
    (dpp : Option DbtProjectParams) (t : OrgTask) : Bool :=
  match build_task_config org sb cb dpp t with
  | .ok (some _) => true
  | _ => false

/-- The build step for this task completed without producing a config
(the `if task_config:` guard of the source would skip it). -/
def build_skipped (org : Org) (sb cb : Option OrgPrefectBlockv1)
    (dpp : Option DbtProjectParams) (t : OrgTask) : Bool :=
  match build_task_config org sb cb dpp t with
  | .ok none => true
  | _ => false

/-- Concrete org with no registered prefect blocks. -/
def org_w : Org := { blocks := [] }

/-- Concrete transform (dbt) org task. -/
def task_dbt_w : OrgTask :=
  { task := { slug := "dbt-run" }, uuid := "uuid-1", connection_id := none
    parameters := "run" }

/-- Concrete git-pull org task. -/
def task_git_w : OrgTask :=
  { task := { slug := "git-pull" }, uuid := "uuid-2", connection_id := none
    parameters := "pull" }

/-- Concrete cli-profile block. -/
def cli_block_w : OrgPrefectBlockv1 :=
  { block_type := "dbt Cli Profile", block_name := "cli-block" }

/-- Concrete dbt project parameters. -/
def dpp_w : DbtProjectParams :=
  { dbt_binary := "/venv/bin/dbt", project_dir := "/proj", target := "prod" }

/-- Concrete lock database: dataflow 1 owns orgtask 10, and one lock on
orgtask 10 holds run id `"rid-1"`, locked by dataflow 1. -/
def lockdb_w : LockDb :=
  { dataflow_orgtasks := [(1, 10)]
    task_locks := [{ orgtask_id := 10, locked_by_email := "user@example.com"
                     locked_at := "2024-01-01", flow_run_id := some "rid-1"
                     locking_dataflow := some 1 }] }

/-- Concrete lock database whose lock belongs to a sibling dataflow 2. -/
def lockdb_sibling_w : LockDb :=
  { dataflow_orgtasks := [(1, 10)]
    task_locks := [{ orgtask_id := 10, locked_by_email := "user@example.com"
                     locked_at := "2024-01-01", flow_run_id := some "rid-1"
                     locking_dataflow := some 2 }] }

/-- Concrete two-level engine-reported run graph: the root's node list
holds one stateless node and one child reference, whose own graph holds
one further child with an empty node list. -/
def tree_w : FlowRunTree :=
  .mk "root" [.noState, .child (.mk "child" [.childNull, .child (.mk "grandchild" [])])]

/-- The config list the concrete C1 assembly run produces. -/
def cfgs_w : List TaskConfig :=
  [.dbtCore
    { seq := 5
      slug := "dbt-run"
      type := DBTCORE
      commands := ["/venv/bin/dbt run --target prod"]
      env := []
      working_dir := "/proj"
      profiles_dir := "/proj/profiles/"
      project_dir := "/proj"
      cli_profile_block := "cli-block"
      cli_args := []
      orgtask_uuid := "uuid-1" }]

/-- Concrete engine answer to the batched log query: one raw record
with two fields beyond the projected three. -/
def logs_filter_w : LogsFilterBody → List PrefectLogRecord :=
  fun _ =>
    [{ level := 20, timestamp := "2024-01-01T00:00:00", message := "hello"
       flow_run_id := some "root", task_run_id := none }]

/-! ## Helper lemmas -/

/-- On a well-shaped engine-reported graph the recursive traversal
succeeds and extends the accumulator by exactly the depth-first
pre-order listing of run identifiers. -/
theorem traverse_run_wf (fr : FlowRunTree) (acc : List (Option String))
    (h : wf_run fr = true) :
    traverse_run fr acc = .ok (acc ++ preorder_ids fr) := by
  refine traverse_run.induct
    (fun fr acc => wf_run fr = true →
      traverse_run fr acc = .ok (acc ++ preorder_ids fr))
    (fun nodes acc => wf_nodes nodes = true →
      traverse_nodes nodes acc = .ok (acc ++ preorder_nodes nodes))
    ?_ ?_ ?_ ?_ ?_ ?_ ?_ ?_ ?_ ?_ fr acc h
  · intro acc i nodes hlen _hwf
    have hnil : nodes = [] := List.length_eq_zero.mp hlen
    subst hnil
    simp [traverse_run, preorder_ids, preorder_nodes]
  · intro acc i nodes flow_runs2 hlen ih hwf
    have hwf2 : wf_nodes nodes = true := by simpa [wf_run] using hwf
    have ih' := ih hwf2
    have hfr2 : flow_runs2 = acc ++ [some i] := rfl
    rw [hfr2] at ih'
    simp only [traverse_run, if_neg hlen, ih', preorder_ids]
    simp
  · intro acc _hwf
    simp [traverse_nodes, preorder_nodes]
  · intro acc rest ih hwf
    have hwf2 : wf_nodes rest = true := by simpa [wf_nodes] using hwf
    simpa [traverse_nodes, preorder_nodes] using ih hwf2
  · intro acc rest ih hwf
    have hwf2 : wf_nodes rest = true := by simpa [wf_nodes] using hwf
    simpa [traverse_nodes, preorder_nodes] using ih hwf2
  · intro acc tail hwf
    simp [wf_nodes] at hwf
  · intro acc rest ih hwf
    have hwf2 : wf_nodes rest = true := by simpa [wf_nodes] using hwf
    simpa [traverse_nodes, preorder_nodes] using ih hwf2
  · intro acc sub rest hid ih hwf
    have hwf2 : wf_nodes rest = true := by
      simp [wf_nodes] at hwf
      exact hwf.2
    simpa [traverse_nodes, preorder_nodes, hid] using ih hwf2
  · intro acc sub rest hid e herr ih1 hwf
    have hsub : wf_run sub = true := by
      simp [wf_nodes] at hwf
      exact hwf.1
    rw [ih1 hsub] at herr
    cases herr
  · intro acc sub rest hid acc2 hok ih1 ih2 hwf
    have hsub : wf_run sub = true := by
      simp [wf_nodes] at hwf
      exact hwf.1
    have hrest : wf_nodes rest = true := by
      simp [wf_nodes] at hwf
      exact hwf.2
    have hacc2 : acc2 = acc ++ preorder_ids sub := by
      rw [ih1 hsub] at hok
      exact (Except.ok.inj hok).symm
    subst hacc2
    simp only [traverse_nodes, hid]
    rw [ih1 hsub]
    simp only [ih2 hrest]
    simp [preorder_nodes, hid]

/-- Overwriting the `seq` entry sets it. -/
theorem TaskConfig.seq_setSeq (c : TaskConfig) (n : Nat) :
    (c.setSeq n).seq = n := by
  cases c <;> rfl

/-- Overwriting the `seq` entry leaves `orgtask_uuid` unchanged. -/
theorem TaskConfig.orgtask_uuid_setSeq (c : TaskConfig) (n : Nat) :
    (c.setSeq n).orgtask_uuid = c.orgtask_uuid := by
  cases c <;> rfl

/-- Every config a build step produces carries the originating org
task's uuid. -/
theorem build_task_config_uuid (org : Org)
    (sb cb : Option OrgPrefectBlockv1) (dpp : Option DbtProjectParams)
    (t : OrgTask) (cfg : TaskConfig)
    (h : build_task_config org sb cb dpp t = .ok (some cfg)) :
    cfg.orgtask_uuid = t.uuid := by
  unfold build_task_config at h
  split at h
  · cases sb with
    | none => simp [setup_airbyte_sync_task_config, Except.map] at h
    | some b =>
      simp [setup_airbyte_sync_task_config, Except.map] at h
      subst h
      rfl
  · split at h
    · cases dpp with
      | none => cases h
      | some p =>
        simp [setup_git_pull_shell_task_config] at h
        subst h
        rfl
    · cases dpp with
      | none => simp [setup_dbt_core_task_config, Except.map] at h
      | some p =>
        cases cb with
        | none => simp [setup_dbt_core_task_config, Except.map] at h
        | some b =>
          simp [setup_dbt_core_task_config, Except.map] at h
          subst h
          rfl

/-- Invariant of the assembly loop: on success the produced configs
carry the gap-free sequence numbers `seq, seq+1, …` in list order, they
are the configs of exactly the build-produced tasks in input order, and
the output length plus the number of skipped build steps is the input
length. -/
theorem pipeline_loop_spec (org : Org) (sb cb : Option OrgPrefectBlockv1)
    (dpp : Option DbtProjectParams) :
    ∀ (ts : List OrgTask) (seq : Nat) (cfgs : List TaskConfig),
      pipeline_loop org sb cb dpp ts seq = .ok cfgs →
      cfgs.map TaskConfig.seq = List.range' seq cfgs.length ∧
      cfgs.map TaskConfig.orgtask_uuid
        = (ts.filter (build_produced org sb cb dpp)).map OrgTask.uuid ∧
      cfgs.length + (ts.filter (build_skipped org sb cb dpp)).length
        = ts.length := by
  intro ts
  induction ts with
  | nil =>
    intro seq cfgs h
    simp only [pipeline_loop] at h
    cases h
    simp
  | cons t rest ih =>
    intro seq cfgs h
    simp only [pipeline_loop] at h
    cases hb : build_task_config org sb cb dpp t with
    | error e => rw [hb] at h; cases h
    | ok oc =>
      rw [hb] at h
      cases oc with
      | none =>
        obtain ⟨h1, h2, h3⟩ := ih seq cfgs h
        refine ⟨h1, ?_, ?_⟩
        · simpa [List.filter, build_produced, hb] using h2
        · simp only [List.filter, build_skipped, hb]
          simp only [List.length_cons]
          omega
      | some cfg =>
        cases hr : pipeline_loop org sb cb dpp rest (seq + 1) with
        | error e => rw [hr] at h; cases h
        | ok cfgs' =>
          rw [hr] at h
          simp only [Except.map] at h
          cases h
          obtain ⟨h1, h2, h3⟩ := ih (seq + 1) cfgs' hr
          refine ⟨?_, ?_, ?_⟩
          · simp only [List.map_cons, TaskConfig.seq_setSeq, h1,
              List.length_cons, List.range'_succ]
          · have huuid : cfg.orgtask_uuid = t.uuid :=
              build_task_config_uuid org sb cb dpp t cfg hb
            simp only [List.map_cons, TaskConfig.orgtask_uuid_setSeq, huuid,
              h2, List.filter, build_produced, hb]
          · simp only [List.filter, build_skipped, hb, List.length_cons]
            omega

/-! ## Claim theorems -/

/-- C1: for every input list of logical tasks and every starting
sequence number, `pipeline_with_orgtasks` returns one descriptor per
task for which the build step produced a config, in input order (each
descriptor carries its originating task's uuid), with `seq` fields
exactly `start_seq, start_seq+1, …`, one increment per produced
descriptor and no gaps; the output length equals the input length minus
the number of build steps that produced no descriptor. -/
theorem C1_pipeline_with_orgtasks_seq (org : Org) (tasks : List OrgTask)
    (sb cb : Option OrgPrefectBlockv1) (dpp : Option DbtProjectParams)
    (start_seq : Nat) (cfgs : List TaskConfig) (err : Option String)
    (h : pipeline_with_orgtasks org tasks sb cb dpp start_seq
      = .ok (cfgs, err)) :
    cfgs.map TaskConfig.seq = List.range' start_seq cfgs.length ∧
    cfgs.map TaskConfig.orgtask_uuid
      = (tasks.filter (build_produced org sb cb dpp)).map OrgTask.uuid ∧
    cfgs.length + (tasks.filter (build_skipped org sb cb dpp)).length
      = tasks.length := by
  have hloop : pipeline_loop org sb cb dpp tasks start_seq = .ok cfgs := by
    unfold pipeline_with_orgtasks at h
    cases hl : pipeline_loop org sb cb dpp tasks start_seq with
    | error e => rw [hl] at h; cases h
    | ok l =>
      rw [hl] at h
      simp only [Except.map] at h
      cases h
      rfl
  exact pipeline_loop_spec org sb cb dpp tasks start_seq cfgs hloop

/-- Witness for C1 at a concrete one-task assembly starting at 5. -/
theorem C1_pipeline_with_orgtasks_seq_witness :
    cfgs_w.map TaskConfig.seq = List.range' 5 cfgs_w.length ∧
    cfgs_w.map TaskConfig.orgtask_uuid
      = ([task_dbt_w].filter
          (build_produced org_w none (some cli_block_w) (some dpp_w))).map
        OrgTask.uuid ∧
    cfgs_w.length
      + ([task_dbt_w].filter
          (build_skipped org_w none (some cli_block_w) (some dpp_w))).length
      = [task_dbt_w].length :=
  C1_pipeline_with_orgtasks_seq org_w [task_dbt_w] none (some cli_block_w)
    (some dpp_w) 5 cfgs_w none (by rfl)

/-- C2: `fetch_pipeline_lock` resolves status by case analysis: no lock
row over any of the pipeline's tasks → `none`; a lock without a run id
→ QUEUED; with a run id, engine state SCHEDULED or PENDING → QUEUED,
RUNNING → RUNNING, any other reported state — a missing run included —
→ COMPLETED (status cases stated for a lock owned by the queried
dataflow, where the returned status is the computed one). -/
theorem C2_fetch_pipeline_lock_cases (db : LockDb)
    (engine : String → EngineRunResp) (df : Nat) :
    ((∀ l ∈ db.task_locks, l.orgtask_id ∉ dataflow_orgtask_ids db df) →
      fetch_pipeline_lock db engine df = none)
    ∧ (∀ lock, find_task_lock db df = some lock →
        lock.locking_dataflow = some df →
        (lock.flow_run_id = none →
          fetch_pipeline_lock db engine df =
            some { lockedBy := lock.locked_by_email
                   lockedAt := lock.locked_at
                   flowRunId := none
                   status := .QUEUED })
        ∧ ∀ rid, lock.flow_run_id = some rid →
            ((engine rid = .found "SCHEDULED" ∨ engine rid = .found "PENDING") →
              (fetch_pipeline_lock db engine df).map LockView.status
                = some .QUEUED)
            ∧ (engine rid = .found "RUNNING" →
              (fetch_pipeline_lock db engine df).map LockView.status
                = some .RUNNING)
            ∧ (∀ s, engine rid = .found s → s ≠ "SCHEDULED" → s ≠ "PENDING" →
                s ≠ "RUNNING" →
              (fetch_pipeline_lock db engine df).map LockView.status
                = some .COMPLETED)
            ∧ (engine rid = .notFound →
              (fetch_pipeline_lock db engine df).map LockView.status
                = some .COMPLETED)) := by
  constructor
  · intro hno
    have hfind : find_task_lock db df = none := by
      unfold find_task_lock
      rw [List.find?_eq_none]
      intro l hl
      simpa using hno l hl
    simp [fetch_pipeline_lock, hfind]
  · intro lock hfind hown
    constructor
    · intro hrun
      simp [fetch_pipeline_lock, hfind, hrun, hown]
    · intro rid hrun
      refine ⟨?_, ?_, ?_, ?_⟩
      · rintro (he | he) <;>
          simp [fetch_pipeline_lock, hfind, hrun, hown, get_flow_run, he]
      · intro he
        simp [fetch_pipeline_lock, hfind, hrun, hown, get_flow_run, he]
      · intro s he hs1 hs2 hs3
        simp [fetch_pipeline_lock, hfind, hrun, hown, get_flow_run, he,
          hs1, hs2, hs3]
      · intro he
        simp [fetch_pipeline_lock, hfind, hrun, hown, get_flow_run, he]

/-- Witness for C2: the concrete lock database and a RUNNING engine,
exercising both the no-lock case (dataflow 2 owns no task) and the
RUNNING case for dataflow 1. -/
theorem C2_fetch_pipeline_lock_cases_witness :
    fetch_pipeline_lock lockdb_w (fun _ => .found "RUNNING") 2 = none
    ∧ (fetch_pipeline_lock lockdb_w (fun _ => .found "RUNNING") 1).map
        LockView.status = some .RUNNING := by
  constructor
  · exact (C2_fetch_pipeline_lock_cases lockdb_w (fun _ => .found "RUNNING")
      2).1 (by decide)
  · exact (((C2_fetch_pipeline_lock_cases lockdb_w
      (fun _ => .found "RUNNING") 1).2
      { orgtask_id := 10, locked_by_email := "user@example.com"
        locked_at := "2024-01-01", flow_run_id := some "rid-1"
        locking_dataflow := some 1 }
      (by rfl) (by rfl)).2 "rid-1" (by rfl)).2.1 (by rfl)

/-- C3: when the lock's recorded locking dataflow differs from the
queried dataflow, the returned record's status is the dedicated
`LOCKED` value, regardless of the engine's reported run state. -/
theorem C3_locked_by_other (db : LockDb) (engine : String → EngineRunResp)
    (df : Nat) (lock : TaskLock)
    (hfind : find_task_lock db df = some lock)
    (hown : lock.locking_dataflow ≠ some df) :
    fetch_pipeline_lock db engine df =
      some { lockedBy := lock.locked_by_email
             lockedAt := lock.locked_at
             flowRunId := lock.flow_run_id
             status := .LOCKED } := by
  have hbeq : (lock.locking_dataflow == some df) = false := by
    simpa using hown
  simp [fetch_pipeline_lock, hfind, hbeq]

/-- Witness for C3: the sibling-lock database queried as dataflow 1
while the lock records dataflow 2, under a RUNNING engine. -/
theorem C3_locked_by_other_witness :
    fetch_pipeline_lock lockdb_sibling_w (fun _ => .found "RUNNING") 1 =
      some { lockedBy := "user@example.com"
             lockedAt := "2024-01-01"
             flowRunId := some "rid-1"
             status := .LOCKED } :=
  C3_locked_by_other lockdb_sibling_w (fun _ => .found "RUNNING") 1
    { orgtask_id := 10, locked_by_email := "user@example.com"
      locked_at := "2024-01-01", flow_run_id := some "rid-1"
      locking_dataflow := some 2 }
    (by rfl) (by decide)

/-- C4: when the engine's live-status query fails, `fetch_pipeline_lock`
still returns a lock record — no hard failure — with the status
degraded to the step-3/4 value COMPLETED (or the LOCKED override when
the lock belongs to another dataflow). -/
theorem C4_engine_failure_degrades (db : LockDb)
    (engine : String → EngineRunResp) (df : Nat) (lock : TaskLock)
    (rid : String)
    (hfind : find_task_lock db df = some lock)
    (hrun : lock.flow_run_id = some rid)
    (hfail : engine rid = .engineFailure) :
    fetch_pipeline_lock db engine df =
      some { lockedBy := lock.locked_by_email
             lockedAt := lock.locked_at
             flowRunId := some rid
             status := if lock.locking_dataflow == some df then .COMPLETED
               else .LOCKED } := by
  simp [fetch_pipeline_lock, hfind, hrun, get_flow_run, hfail]

/-- Witness for C4: the concrete lock database with a failing engine. -/
theorem C4_engine_failure_degrades_witness :
    fetch_pipeline_lock lockdb_w (fun _ => .engineFailure) 1 =
      some { lockedBy := "user@example.com"
             lockedAt := "2024-01-01"
             flowRunId := some "rid-1"
             status := if (some 1 : Option Nat) == some 1 then .COMPLETED
               else .LOCKED } :=
  C4_engine_failure_degrades lockdb_w (fun _ => .engineFailure) 1
    { orgtask_id := 10, locked_by_email := "user@example.com"
      locked_at := "2024-01-01", flow_run_id := some "rid-1"
      locking_dataflow := some 1 }
    "rid-1" (by rfl) (by rfl) (by rfl)

/-- C5: on every finite acyclic (well-shaped) engine-reported run graph
the traversal terminates with the depth-first pre-order identifier
listing, the current run identifier placed before its children; a null
run identifier returns the accumulator extended by the null identifier
immediately, with no engine query; a run whose graph query yields an
empty node list returns the accumulated list including that run. -/
theorem C5_traverse_flow_run_graph_preorder (fr : FlowRunTree)
    (acc : List (Option String)) (i : String) (h : wf_run fr = true) :
    traverse_flow_run_graph (some fr) acc = .ok (acc ++ preorder_ids fr)
    ∧ traverse_flow_run_graph none acc = .ok (acc ++ [none])
    ∧ traverse_flow_run_graph (some (.mk i [])) acc
        = .ok (acc ++ [some i]) := by
  refine ⟨traverse_run_wf fr acc h, by simp [traverse_flow_run_graph], ?_⟩
  simp [traverse_flow_run_graph, traverse_run]

/-- Witness for C5 on the concrete two-level graph. -/
theorem C5_traverse_flow_run_graph_preorder_witness :
    traverse_flow_run_graph (some tree_w) [some "x"]
      = .ok ([some "x"] ++ preorder_ids tree_w)
    ∧ traverse_flow_run_graph none [some "x"] = .ok [some "x", none]
    ∧ traverse_flow_run_graph (some (.mk "solo" [])) [some "x"]
        = .ok [some "x", some "solo"] :=
  C5_traverse_flow_run_graph_preorder tree_w [some "x"] "solo" (by rfl)

/-- C6: `get_flow_run_logs` issues one batched log query over the whole
traversed identifier set (root plus all descendants), with operator
`and_`, ascending-timestamp sort and the caller's offset, projects each
raw record to exactly `{level, timestamp, message}`, and returns
`{offset, logs}` with the offset echoed unchanged. -/
theorem C6_get_flow_run_logs_batched
    (logs_filter : LogsFilterBody → List PrefectLogRecord)
    (fr : FlowRunTree) (offset : Int) (h : wf_run fr = true) :
    get_flow_run_logs logs_filter (some fr) offset =
      .ok { offset := offset
            logs := (logs_filter
                { operator := "and_"
                  flow_run_id_any := preorder_ids fr
                  sort := "TIMESTAMP_ASC"
                  offset := offset }).map
              fun l => { level := l.level, timestamp := l.timestamp
                         message := l.message } } := by
  have htrav : traverse_flow_run_graph (some fr) [] = .ok (preorder_ids fr) := by
    simpa using traverse_run_wf fr [] h
  simp only [get_flow_run_logs, htrav]
  rfl

/-- Witness for C6 on the concrete two-level graph with a one-record
engine answer and offset 3. -/
theorem C6_get_flow_run_logs_batched_witness :
    get_flow_run_logs logs_filter_w (some tree_w) 3 =
      .ok { offset := 3
            logs := [{ level := 20, timestamp := "2024-01-01T00:00:00"
                       message := "hello" }] } :=
  C6_get_flow_run_logs_batched logs_filter_w tree_w 3 (by rfl)

/-- C10: the traversal appends the null identifier before the null
check, so from a null root it returns the one-element list `[None]`;
`get_flow_run_logs` on a null run identifier therefore does not
short-circuit: it issues the batched log query with the null identifier
in its flow-run-id set and echoes the offset as usual. -/
theorem C10_null_root_traversal
    (logs_filter : LogsFilterBody → List PrefectLogRecord) (offset : Int) :
    traverse_flow_run_graph none [] = .ok [none]
    ∧ get_flow_run_logs logs_filter none offset =
        .ok { offset := offset
              logs := (logs_filter
                  { operator := "and_"
                    flow_run_id_any := [none]
                    sort := "TIMESTAMP_ASC"
                    offset := offset }).map parse_log } := by
  constructor
  · rfl
  · rfl

/-- C7: a git-pull task assembled for an organization with no matching
secret block (kind SECRET, name containing "git-pull") yields a
descriptor whose environment secret slot is the explicit empty string —
no ConfigError — and the pipeline assembly includes that descriptor. -/
theorem C7_gitpull_no_secret (org : Org) (t : OrgTask)
    (p : DbtProjectParams) (sb cb : Option OrgPrefectBlockv1)
    (start_seq : Nat)
    (hslug : t.task.slug = TASK_GITPULL)
    (hsec : ∀ b ∈ org.blocks,
      ¬(b.block_type = SECRET ∧ strContains b.block_name "git-pull" = true)) :
    build_task_config org sb cb (some p) t =
      .ok (some (.shell
        { commands := ["git " ++ t.parameters]
          working_dir := p.project_dir
          env := [("secret-git-pull-url-block", "")]
          slug := t.task.slug
          type := SHELLOPERATION
          seq := 1
          orgtask_uuid := t.uuid }))
    ∧ pipeline_with_orgtasks org [t] sb cb (some p) start_seq =
        .ok ([.shell
          { commands := ["git " ++ t.parameters]
            working_dir := p.project_dir
            env := [("secret-git-pull-url-block", "")]
            slug := t.task.slug
            type := SHELLOPERATION
            seq := start_seq
            orgtask_uuid := t.uuid }], none) := by
  have hfilter : org.blocks.filter (fun b =>
      b.block_type == SECRET && strContains b.block_name "git-pull") = [] := by
    rw [List.filter_eq_nil_iff]
    intro b hb
    have hnb := hsec b hb
    simp only [Bool.and_eq_true, beq_iff_eq, not_and]
    intro h1 h2
    exact hnb ⟨h1, h2⟩
  have hb1 : (t.task.slug == TASK_AIRBYTESYNC) = false := by
    simp [hslug, TASK_GITPULL, TASK_AIRBYTESYNC]
  have hb2 : (t.task.slug == TASK_GITPULL) = true := by simp [hslug]
  constructor
  · simp [build_task_config, hb1, hb2, hfilter,
      setup_git_pull_shell_task_config]
  · simp [pipeline_with_orgtasks, pipeline_loop, build_task_config, hb1, hb2,
      hfilter, setup_git_pull_shell_task_config, Except.map, TaskConfig.setSeq]

/-- Witness for C7: the block-less concrete org, the concrete git-pull
task and dbt params, starting at 7. -/
theorem C7_gitpull_no_secret_witness :
    build_task_config org_w none none (some dpp_w) task_git_w =
      .ok (some (.shell
        { commands := ["git " ++ task_git_w.parameters]
          working_dir := dpp_w.project_dir
          env := [("secret-git-pull-url-block", "")]
          slug := task_git_w.task.slug
          type := SHELLOPERATION
          seq := 1
          orgtask_uuid := task_git_w.uuid }))
    ∧ pipeline_with_orgtasks org_w [task_git_w] none none (some dpp_w) 7 =
        .ok ([.shell
          { commands := ["git " ++ task_git_w.parameters]
            working_dir := dpp_w.project_dir
            env := [("secret-git-pull-url-block", "")]
            slug := task_git_w.task.slug
            type := SHELLOPERATION
            seq := 7
            orgtask_uuid := task_git_w.uuid }], none) :=
  C7_gitpull_no_secret org_w task_git_w dpp_w none none 7 (by rfl)
    (by intro b hb; cases hb)

/-- C8: a transform task (any slug other than the sync and git-pull
kinds) submitted with no dbt execution context makes descriptor
construction fail with the configuration error, and the assembler
surfaces that error to its caller unchanged. -/
theorem C8_transform_no_context (org : Org) (t : OrgTask)
    (rest : List OrgTask) (sb cb : Option OrgPrefectBlockv1)
    (start_seq : Nat)
    (h1 : t.task.slug ≠ TASK_AIRBYTESYNC)
    (h2 : t.task.slug ≠ TASK_GITPULL) :
    setup_dbt_core_task_config t cb none 1 =
      .error "AttributeError: NoneType has no attribute dbt_binary"
    ∧ build_task_config org sb cb none t =
        .error "AttributeError: NoneType has no attribute dbt_binary"
    ∧ pipeline_with_orgtasks org (t :: rest) sb cb none start_seq =
        .error "AttributeError: NoneType has no attribute dbt_binary" := by
  have hb1 : (t.task.slug == TASK_AIRBYTESYNC) = false := by
    simpa using h1
  have hb2 : (t.task.slug == TASK_GITPULL) = false := by
    simpa using h2
  refine ⟨rfl, ?_, ?_⟩
  · simp [build_task_config, hb1, hb2, setup_dbt_core_task_config, Except.map]
  · simp [pipeline_with_orgtasks, pipeline_loop, build_task_config, hb1, hb2,
      setup_dbt_core_task_config, Except.map]

/-- Witness for C8: the concrete dbt task (slug "dbt-run") with no dbt
project parameters. -/
theorem C8_transform_no_context_witness :
    setup_dbt_core_task_config task_dbt_w (some cli_block_w) none 1 =
      .error "AttributeError: NoneType has no attribute dbt_binary"
    ∧ build_task_config org_w none (some cli_block_w) none task_dbt_w =
        .error "AttributeError: NoneType has no attribute dbt_binary"
    ∧ pipeline_with_orgtasks org_w [task_dbt_w] none (some cli_block_w) none 0 =
        .error "AttributeError: NoneType has no attribute dbt_binary" :=
  C8_transform_no_context org_w task_dbt_w [] none (some cli_block_w) 0
    (by decide) (by decide)

/-- C9 counterexample: a graph node whose `state` and `state_details`
are present but which carries no `child_flow_run_id` entry makes the
traversal fail with the key-access error — the claim's "the node is
skipped and the traversal continues" is false at this input. -/
theorem C9_counterexample :
    traverse_flow_run_graph (some (.mk "run-1" [.noChildKey])) []
      = .error "KeyError: child_flow_run_id" := by
  rfl

/-- C9 as amended: a node missing the `state` key, or missing the
`state_details` key, or whose `child_flow_run_id` entry is null, is
skipped and the traversal continues; a node whose `state_details` is
present without a `child_flow_run_id` entry makes the traversal fail
with a `KeyError`; and on a graph all of whose reachable nodes carry
the entry the traversal never fails. -/
theorem C9_amended_node_handling (acc : List (Option String))
    (rest : List (GNode FlowRunTree)) (fr : FlowRunTree)
    (h : wf_run fr = true) :
    traverse_nodes (GNode.noState :: rest) acc = traverse_nodes rest acc
    ∧ traverse_nodes (GNode.noDetails :: rest) acc = traverse_nodes rest acc
    ∧ traverse_nodes (GNode.childNull :: rest) acc = traverse_nodes rest acc
    ∧ traverse_nodes (GNode.noChildKey :: rest) acc
        = .error "KeyError: child_flow_run_id"
    ∧ ∃ r, traverse_flow_run_graph (some fr) acc = Except.ok r :=
  ⟨rfl, rfl, rfl, rfl, acc ++ preorder_ids fr, traverse_run_wf fr acc h⟩

/-- Witness for C9's amended statement on the concrete two-level graph. -/
theorem C9_amended_node_handling_witness :
    traverse_nodes [GNode.noState] [] = traverse_nodes [] []
    ∧ traverse_nodes [GNode.noDetails] [] = traverse_nodes [] []
    ∧ traverse_nodes [GNode.childNull] [] = traverse_nodes [] []
    ∧ traverse_nodes [GNode.noChildKey] []
        = .error "KeyError: child_flow_run_id"
    ∧ ∃ r, traverse_flow_run_graph (some tree_w) [] = Except.ok r :=
  C9_amended_node_handling [] [] tree_w (by rfl)

end Ddp
